import Mathlib

/-!
A shallow embedding of the display-refresh controller of the NPNF_device
repository (`src/eink_service.py`): the function `update_display` together
with its helper `should_refresh_display`, the module-level state it mutates
(`last_config`, `last_refresh_time`, `partial_refresh_count`,
`DISPLAY_SLEEPING`, `current_display_mode`) and the function attribute
`update_display.last_image_hash`.

External effects are modelled by an oracle (`TickEnv`) fixing, for one tick,
the results of the calls `update_display` makes in program order: the two
`fetch_device_data` calls, the renderer lookup, the rendered bitmap's MD5
digest (abstracted as a natural number; the source compares digests for
equality only), and one Boolean per hardware-driver call site saying whether
that call returns normally or raises.  Every attempted driver call is
recorded in an event trace, a raising call included: the call was made.
Times are seconds as naturals (`time.time()` values).
-/

/-- `MIN_REFRESH_INTERVAL = 300` (eink_service.py line 101). -/
def MIN_REFRESH_INTERVAL : Nat := 300

/-- `MAX_PARTIAL_REFRESHES = 5` (eink_service.py line 109). -/
def MAX_PARTIAL_REFRESHES : Nat := 5

/-- The change fingerprint `config_key = (view_type, len(todos), display_mode)`
built at eink_service.py line 239. -/
structure Fingerprint where
  view_type : String
  n_todos : Nat
  display_mode : String
  deriving DecidableEq, Repr

/-- The controller's mutable state: the module globals and the
`update_display.last_image_hash` attribute of eink_service.py. -/
structure ControllerState where
  last_config : Option Fingerprint
  last_refresh_time : Nat
  partial_refresh_count : Nat
  DISPLAY_SLEEPING : Bool
  current_display_mode : Option String
  last_image_hash : Option Nat
  deriving DecidableEq, Repr

/-- One successful result of `fetch_device_data`: the parts of the JSON the
controller reads, namely `config.get('view_type')`,
`config.get('display_mode')` (each possibly absent) and `len(todos)`. -/
structure FetchData where
  config_view_type : Option String
  config_display_mode : Option String
  n_todos : Nat
  deriving DecidableEq, Repr

/-- One attempted call into the Waveshare driver `epd`.  A call that raises
is still an event: the call was made. -/
inductive HWEvent where
  | init4Gray
  | init
  | initPart
  | display4Gray
  | displayFull
  | displayPartial
  | sleepPanel
  deriving DecidableEq, Repr

/-- Which branch ended the tick.  Each constructor matches a distinct log
message (or caught exception site) of `update_display`. -/
inductive TickOutcome where
  | fetchFailed       -- "No data received, skipping update" (either fetch)
  | skipped           -- "Skipping refresh (too soon since last update)"
  | noRenderer        -- "Renderer for '...' not found"
  | renderRaised      -- render_func raised; caught by the outer handler
  | contentUnchanged  -- "Content unchanged, skipping update"
  | wakeFailed        -- "Error reinitializing display"; early return (line 293)
  | wroteGray         -- "Full refresh (4-gray mode)"
  | grayFailed        -- display_4Gray raised; caught by the outer handler
  | wroteFull         -- "Full refresh (clearing ghosting)"
  | fullFailed        -- display raised; caught by the outer handler
  | wrotePartial      -- "Partial refresh (n/5)"
  | fellBack          -- "Partial update failed", fallback display succeeded
  | fallbackFailed    -- the fallback display raised; caught by the outer handler
  deriving DecidableEq, Repr

/-- The oracle for one tick: results of the external calls `update_display`
makes, in program order.  `now` is the value of `time.time()` during the
tick.  Each `...Ok` flag says whether the driver call at that site returns
normally (`true`) or raises (`false`). -/
structure TickEnv where
  now : Nat
  fetch1 : Option FetchData  -- first fetch_device_data (line 182)
  fetch2 : Option FetchData  -- second fetch_device_data (line 193)
  rendererFound : Bool       -- get_renderer(view_type) is not None
  render : Option Nat        -- some digest of the rendered bitmap, none = raised
  hasInitPart : Bool         -- hasattr(epd, 'init_part')
  modeInitOk : Bool          -- the init call in the mode-change block (lines 216-230)
  wakeInitOk : Bool          -- the init call in the wake block (lines 277-293)
  grayOk : Bool              -- epd.display_4Gray (line 304)
  fullOk : Bool              -- epd.display (line 310 and the fallback at line 320)
  partialOk : Bool           -- epd.display_Partial (line 315)
  sleepOk : Bool             -- epd.sleep (line 325)
  deriving DecidableEq, Repr

/-- The result of one tick: the post state, the attempted driver calls in
order, and the branch that ended the tick. -/
structure TickResult where
  state : ControllerState
  events : List HWEvent
  outcome : TickOutcome
  deriving DecidableEq, Repr

/-- `view_type = config.get('view_type', 'weekly')` (line 189), taken from the
FIRST fetch; the source never recomputes it from the second fetch. -/
def viewOf (d : FetchData) : String :=
  d.config_view_type.getD "weekly"

/-- `display_mode = config.get('display_mode', '4gray')` with the validation of
lines 206-210: anything other than `'4gray'` or `'bw'` falls back to
`'4gray'`.  Taken from the SECOND fetch. -/
def displayModeOf (d : FetchData) : String :=
  let m := d.config_display_mode.getD "4gray"
  if m = "4gray" ∨ m = "bw" then m else "4gray"

/-- `config_key = (view_type, len(todos), display_mode)` (line 239):
the view type from the first fetch, the task count and display mode from the
second. -/
def fingerprintOf (d1 d2 : FetchData) : Fingerprint :=
  ⟨viewOf d1, d2.n_todos, displayModeOf d2⟩

/-- `should_refresh_display(current_config, last_config, last_refresh_time)`
(eink_service.py lines 127-140), with the call's `time.time()` passed as
`now`. -/
def should_refresh_display (current_config : Fingerprint)
    (last_config : Option Fingerprint) (last_refresh_time now : Nat) : Bool :=
  match last_config with
  | none => true
  | some l =>
    if current_config ≠ l then true
    else if now - last_refresh_time < MIN_REFRESH_INTERVAL then false
    else true

/-- The event trace of one reinitialization attempt for mode `dm`:
`epd.init_4Gray()` in four-gray mode; in black/white mode `epd.init()`
followed, when the attribute exists and `init` returned, by
`epd.init_part()` (whose own failure the source swallows). -/
def initAttemptEvents (dm : String) (ok hasPart : Bool) : List HWEvent :=
  if dm = "4gray" then [.init4Gray]
  else if ok then .init :: (if hasPart then [.initPart] else []) else [.init]

/-- The mode-change block (lines 213-236): when `current_display_mode` is set
and differs from the snapshot's mode, reinitialize; on success clear
`DISPLAY_SLEEPING` and record the new mode, on failure swallow the exception
and keep the old recorded mode.  When `current_display_mode` is `None`, just
record the mode. -/
def modeChange (s : ControllerState) (dm : String) (e : TickEnv) :
    ControllerState × List HWEvent :=
  match s.current_display_mode with
  | none => ({s with current_display_mode := some dm}, [])
  | some cm =>
    if cm = dm then (s, [])
    else if e.modeInitOk then
      ({s with DISPLAY_SLEEPING := false, current_display_mode := some dm},
       initAttemptEvents dm true e.hasInitPart)
    else (s, initAttemptEvents dm false e.hasInitPart)

/-- The result of the wake block (lines 276-293). -/
structure WakeResult where
  ok : Bool
  state : ControllerState
  events : List HWEvent
  deriving DecidableEq, Repr

/-- The wake block (lines 276-293): when `DISPLAY_SLEEPING`, reinitialize for
the snapshot's mode; on success clear the flag, on failure return from the
tick (`ok = false`). -/
def wake (s : ControllerState) (dm : String) (e : TickEnv) : WakeResult :=
  if s.DISPLAY_SLEEPING then
    if e.wakeInitOk then
      ⟨true, {s with DISPLAY_SLEEPING := false}, initAttemptEvents dm true e.hasInitPart⟩
    else ⟨false, s, initAttemptEvents dm false e.hasInitPart⟩
  else ⟨true, s, []⟩

/-- `need_full_refresh` (lines 296-300): the counter reached the threshold, or
this is the first update, or the fingerprint changed. -/
def need_full_refresh (s : ControllerState) (ck : Fingerprint) : Bool :=
  decide (MAX_PARTIAL_REFRESHES ≤ s.partial_refresh_count) ||
    s.last_config.isNone || decide (s.last_config ≠ some ck)

/-- The commit after a successful write (lines 323-332): attempt `epd.sleep()`
(its failure only logs a warning), then set `last_config` and
`last_refresh_time`.  The `sleepPanel` event is appended by the caller. -/
def afterWrite (s : ControllerState) (ck : Fingerprint) (e : TickEnv) :
    ControllerState :=
  let s' := if e.sleepOk then {s with DISPLAY_SLEEPING := true} else s
  {s' with last_config := some ck, last_refresh_time := e.now}

/-- The write block (lines 295-332): four-gray mode always writes with
`display_4Gray` and zeroes the counter; black/white mode writes fully when
`need_full_refresh`, otherwise attempts `display_Partial`, falling back to a
full `display` when the partial call raises.  A write call that raises ends
the tick with the accumulated state (the outer handler catches it); a write
that returns is followed by the sleep-and-commit epilogue. -/
def writeStage (s : ControllerState) (ck : Fingerprint) (dm : String)
    (e : TickEnv) : TickResult :=
  if dm = "4gray" then
    if e.grayOk then
      ⟨afterWrite {s with partial_refresh_count := 0} ck e,
       [.display4Gray, .sleepPanel], .wroteGray⟩
    else ⟨s, [.display4Gray], .grayFailed⟩
  else if need_full_refresh s ck then
    if e.fullOk then
      ⟨afterWrite {s with partial_refresh_count := 0} ck e,
       [.displayFull, .sleepPanel], .wroteFull⟩
    else ⟨s, [.displayFull], .fullFailed⟩
  else if e.partialOk then
    ⟨afterWrite {s with partial_refresh_count := s.partial_refresh_count + 1} ck e,
     [.displayPartial, .sleepPanel], .wrotePartial⟩
  else if e.fullOk then
    ⟨afterWrite {s with partial_refresh_count := 0} ck e,
     [.displayPartial, .displayFull, .sleepPanel], .fellBack⟩
  else ⟨s, [.displayPartial, .displayFull], .fallbackFailed⟩

/-- The assignment `update_display.last_image_hash = current_hash`
(line 271), performed BEFORE the write is attempted. -/
def setHash (s : ControllerState) (h : Nat) : ControllerState :=
  {s with last_image_hash := some h}

/-- The body of `update_display` once both fetches returned data `d1`, `d2`:
mode-change check, `should_refresh_display` gate, renderer lookup, render and
content-hash check (the hash is stored BEFORE the write is attempted, line
271), wake, then the write block. -/
def tickBody (s : ControllerState) (e : TickEnv) (d1 d2 : FetchData) :
    TickResult :=
  let dm := displayModeOf d2
  let mc := modeChange s dm e
  let ck := fingerprintOf d1 d2
  -- The guards below read `last_config`, `last_refresh_time` and
  -- `last_image_hash` from `s`: the mode-change block never writes those
  -- globals, so this is the value the source reads after it.
  if should_refresh_display ck s.last_config s.last_refresh_time e.now = false then
    ⟨mc.1, mc.2, .skipped⟩
  else if e.rendererFound = false then ⟨mc.1, mc.2, .noRenderer⟩
  else
    match e.render with
    | none => ⟨mc.1, mc.2, .renderRaised⟩
    | some h =>
      if s.last_image_hash = some h then ⟨mc.1, mc.2, .contentUnchanged⟩
      else
        let w := wake (setHash mc.1 h) dm e
        if w.ok = false then ⟨w.state, mc.2 ++ w.events, .wakeFailed⟩
        else
          let r := writeStage w.state ck dm e
          ⟨r.state, mc.2 ++ w.events ++ r.events, r.outcome⟩

/-- One call of `update_display` (eink_service.py lines 165-338).  Either
fetch returning `None` ends the tick at once with nothing changed. -/
def tick (s : ControllerState) (e : TickEnv) : TickResult :=
  match e.fetch1 with
  | none => ⟨s, [], .fetchFailed⟩
  | some d1 =>
    match e.fetch2 with
    | none => ⟨s, [], .fetchFailed⟩
    | some d2 => tickBody s e d1 d2

/-- The state after a sequence of ticks. -/
def runState (s : ControllerState) : List TickEnv → ControllerState
  | [] => s
  | e :: es => runState (tick s e).state es

/-- All attempted driver calls over a sequence of ticks, in order. -/
def runEvents (s : ControllerState) : List TickEnv → List HWEvent
  | [] => []
  | e :: es => (tick s e).events ++ runEvents (tick s e).state es

/-- The controller state right after `main()`'s initialization (lines
340-452): no fingerprint, no committed refresh, counter zero, panel awake and
initialized for mode `m`, no stored image hash. -/
def initState (m : String) : ControllerState :=
  { last_config := none, last_refresh_time := 0, partial_refresh_count := 0,
    DISPLAY_SLEEPING := false, current_display_mode := some m,
    last_image_hash := none }

/-- A tick environment where both fetches return `None` and every driver call
would succeed; the base for concrete scenarios. -/
def envAllOk : TickEnv :=
  { now := 0, fetch1 := none, fetch2 := none, rendererFound := true,
    render := none, hasInitPart := false, modeInitOk := true,
    wakeInitOk := true, grayOk := true, fullOk := true, partialOk := true,
    sleepOk := true }

/-- A happy-path black/white tick: both fetches return the same snapshot
(view `weekly`, mode `bw`, two todos), the renderer is found and renders a
bitmap with digest `digest`, and every driver call succeeds. -/
def bwEnv (now digest : Nat) : TickEnv :=
  { envAllOk with
    now := now,
    fetch1 := some ⟨some "weekly", some "bw", 2⟩,
    fetch2 := some ⟨some "weekly", some "bw", 2⟩,
    render := some digest }

/-- A happy-path four-gray tick: both fetches return a four-gray snapshot
(view `weekly`, mode `4gray`, three todos) and every driver call succeeds. -/
def grayEnv (now digest : Nat) : TickEnv :=
  { envAllOk with
    now := now,
    fetch1 := some ⟨some "weekly", some "4gray", 3⟩,
    fetch2 := some ⟨some "weekly", some "4gray", 3⟩,
    render := some digest }

/-- The six-tick black/white scenario of the spec's partial-refresh test:
tick 1 at time 1000, then five more ticks 400 seconds apart, all with the
same fingerprint but pairwise distinct bitmap digests. -/
def sixTicks : List TickEnv :=
  [bwEnv 1000 1, bwEnv 1400 2, bwEnv 1800 3, bwEnv 2200 4, bwEnv 2600 5,
   bwEnv 3000 6]

/-- The same scenario extended by a seventh tick. -/
def sevenTicks : List TickEnv :=
  sixTicks ++ [bwEnv 3400 7]

/-- A black/white state whose stored fingerprint matches `bwEnv`'s snapshot
and whose counter is 3: the write stage will choose a partial refresh. -/
def c1State : ControllerState :=
  { last_config := some ⟨"weekly", 2, "bw"⟩, last_refresh_time := 1000,
    partial_refresh_count := 3, DISPLAY_SLEEPING := false,
    current_display_mode := some "bw", last_image_hash := none }

/-- A tick whose `display_Partial` and whose fallback `display` both raise. -/
def c1Env : TickEnv :=
  { bwEnv 2000 7 with
    partialOk := false, fullOk := false }

/-- A state whose stored fingerprint matches `bwEnv`'s snapshot but whose
panel is still initialized for four-gray mode (reachable when a previous
mode-change reinitialization failed after the fingerprint was committed). -/
def c3ceState : ControllerState :=
  { last_config := some ⟨"weekly", 2, "bw"⟩, last_refresh_time := 1000,
    partial_refresh_count := 0, DISPLAY_SLEEPING := true,
    current_display_mode := some "4gray", last_image_hash := none }

/-- Like `c3ceState` but with the panel already in black/white mode, so the
tick hits the pure skip path. -/
def c3WitState : ControllerState :=
  { last_config := some ⟨"weekly", 2, "bw"⟩, last_refresh_time := 1000,
    partial_refresh_count := 0, DISPLAY_SLEEPING := true,
    current_display_mode := some "bw", last_image_hash := none }

/-- A tick whose full `display` write raises. -/
def c5Env : TickEnv :=
  { bwEnv 1000 9 with
    fullOk := false }

/-- A tick requesting black/white mode whose mode-change reinitialization
raises. -/
def c6Env : TickEnv :=
  { bwEnv 1000 7 with
    modeInitOk := false }

/-- A state whose stored image hash equals the digest `bwEnv _ 7` will
render, while its stored fingerprint (task count 1) differs from the
snapshot's (task count 2). -/
def c7State : ControllerState :=
  { last_config := some ⟨"weekly", 1, "bw"⟩, last_refresh_time := 1000,
    partial_refresh_count := 0, DISPLAY_SLEEPING := false,
    current_display_mode := some "bw", last_image_hash := some 7 }

-- ### Helper lemmas: which state fields each phase leaves untouched

@[simp] lemma afterWrite_partial_refresh_count (s : ControllerState)
    (ck : Fingerprint) (e : TickEnv) :
    (afterWrite s ck e).partial_refresh_count = s.partial_refresh_count := by
  unfold afterWrite; split <;> rfl

@[simp] lemma afterWrite_last_config (s : ControllerState) (ck : Fingerprint)
    (e : TickEnv) : (afterWrite s ck e).last_config = some ck := by
  unfold afterWrite; split <;> rfl

@[simp] lemma afterWrite_last_refresh_time (s : ControllerState)
    (ck : Fingerprint) (e : TickEnv) :
    (afterWrite s ck e).last_refresh_time = e.now := by
  unfold afterWrite; split <;> rfl

@[simp] lemma afterWrite_current_display_mode (s : ControllerState)
    (ck : Fingerprint) (e : TickEnv) :
    (afterWrite s ck e).current_display_mode = s.current_display_mode := by
  unfold afterWrite; split <;> rfl

@[simp] lemma afterWrite_last_image_hash (s : ControllerState)
    (ck : Fingerprint) (e : TickEnv) :
    (afterWrite s ck e).last_image_hash = s.last_image_hash := by
  unfold afterWrite; split <;> rfl

@[simp] lemma setHash_last_config (s : ControllerState) (h : Nat) :
    (setHash s h).last_config = s.last_config := rfl

@[simp] lemma setHash_last_refresh_time (s : ControllerState) (h : Nat) :
    (setHash s h).last_refresh_time = s.last_refresh_time := rfl

@[simp] lemma setHash_partial_refresh_count (s : ControllerState) (h : Nat) :
    (setHash s h).partial_refresh_count = s.partial_refresh_count := rfl

@[simp] lemma setHash_DISPLAY_SLEEPING (s : ControllerState) (h : Nat) :
    (setHash s h).DISPLAY_SLEEPING = s.DISPLAY_SLEEPING := rfl

@[simp] lemma setHash_current_display_mode (s : ControllerState) (h : Nat) :
    (setHash s h).current_display_mode = s.current_display_mode := rfl

@[simp] lemma setHash_last_image_hash (s : ControllerState) (h : Nat) :
    (setHash s h).last_image_hash = some h := rfl

@[simp] lemma modeChange_last_config (s : ControllerState) (dm : String)
    (e : TickEnv) : (modeChange s dm e).1.last_config = s.last_config := by
  unfold modeChange
  rcases s.current_display_mode with _ | cm
  · rfl
  · dsimp only; split_ifs <;> rfl

@[simp] lemma modeChange_last_refresh_time (s : ControllerState) (dm : String)
    (e : TickEnv) :
    (modeChange s dm e).1.last_refresh_time = s.last_refresh_time := by
  unfold modeChange
  rcases s.current_display_mode with _ | cm
  · rfl
  · dsimp only; split_ifs <;> rfl

@[simp] lemma modeChange_partial_refresh_count (s : ControllerState)
    (dm : String) (e : TickEnv) :
    (modeChange s dm e).1.partial_refresh_count = s.partial_refresh_count := by
  unfold modeChange
  rcases s.current_display_mode with _ | cm
  · rfl
  · dsimp only; split_ifs <;> rfl

@[simp] lemma modeChange_last_image_hash (s : ControllerState) (dm : String)
    (e : TickEnv) :
    (modeChange s dm e).1.last_image_hash = s.last_image_hash := by
  unfold modeChange
  rcases s.current_display_mode with _ | cm
  · rfl
  · dsimp only; split_ifs <;> rfl

@[simp] lemma wake_last_config (s : ControllerState) (dm : String)
    (e : TickEnv) : (wake s dm e).state.last_config = s.last_config := by
  unfold wake; split_ifs <;> rfl

@[simp] lemma wake_last_refresh_time (s : ControllerState) (dm : String)
    (e : TickEnv) :
    (wake s dm e).state.last_refresh_time = s.last_refresh_time := by
  unfold wake; split_ifs <;> rfl

@[simp] lemma wake_partial_refresh_count (s : ControllerState) (dm : String)
    (e : TickEnv) :
    (wake s dm e).state.partial_refresh_count = s.partial_refresh_count := by
  unfold wake; split_ifs <;> rfl

@[simp] lemma wake_current_display_mode (s : ControllerState) (dm : String)
    (e : TickEnv) :
    (wake s dm e).state.current_display_mode = s.current_display_mode := by
  unfold wake; split_ifs <;> rfl

@[simp] lemma wake_last_image_hash (s : ControllerState) (dm : String)
    (e : TickEnv) :
    (wake s dm e).state.last_image_hash = s.last_image_hash := by
  unfold wake; split_ifs <;> rfl

@[simp] lemma writeStage_current_display_mode (s : ControllerState)
    (ck : Fingerprint) (dm : String) (e : TickEnv) :
    (writeStage s ck dm e).state.current_display_mode =
      s.current_display_mode := by
  unfold writeStage; split_ifs <;> simp

@[simp] lemma writeStage_last_image_hash (s : ControllerState)
    (ck : Fingerprint) (dm : String) (e : TickEnv) :
    (writeStage s ck dm e).state.last_image_hash = s.last_image_hash := by
  unfold writeStage; split_ifs <;> simp

lemma tick_eq_body (s : ControllerState) (e : TickEnv) (d1 d2 : FetchData)
    (h1 : e.fetch1 = some d1) (h2 : e.fetch2 = some d2) :
    tick s e = tickBody s e d1 d2 := by
  unfold tick; rw [h1, h2]

lemma writeStage_count_le (s : ControllerState) (ck : Fingerprint)
    (dm : String) (e : TickEnv)
    (h : s.partial_refresh_count ≤ MAX_PARTIAL_REFRESHES) :
    (writeStage s ck dm e).state.partial_refresh_count ≤
      MAX_PARTIAL_REFRESHES := by
  unfold writeStage
  split_ifs with h1 h2 h3 h4 h5 <;>
    (simp_all [need_full_refresh, MAX_PARTIAL_REFRESHES]; try omega)

lemma tick_count_le (s : ControllerState) (e : TickEnv)
    (h : s.partial_refresh_count ≤ MAX_PARTIAL_REFRESHES) :
    (tick s e).state.partial_refresh_count ≤ MAX_PARTIAL_REFRESHES := by
  unfold tick
  cases hf1 : e.fetch1 with
  | none => simpa using h
  | some d1 =>
    cases hf2 : e.fetch2 with
    | none => simpa using h
    | some d2 =>
      simp only [tickBody]
      by_cases hs : should_refresh_display (fingerprintOf d1 d2) s.last_config
          s.last_refresh_time e.now = false
      · rw [if_pos hs]; simpa using h
      · rw [if_neg hs]
        by_cases hrf : e.rendererFound = false
        · rw [if_pos hrf]; simpa using h
        · rw [if_neg hrf]
          cases hr : e.render with
          | none => simpa using h
          | some dg =>
            dsimp only
            by_cases hh : s.last_image_hash = some dg
            · rw [if_pos hh]; simpa using h
            · rw [if_neg hh]
              set w := wake (setHash (modeChange s (displayModeOf d2) e).1 dg)
                  (displayModeOf d2) e with hwdef
              have h2 : w.state.partial_refresh_count = s.partial_refresh_count := by
                rw [hwdef, wake_partial_refresh_count, setHash_partial_refresh_count,
                  modeChange_partial_refresh_count]
              clear_value w
              cases hwok : w.ok with
              | false => simpa [h2] using h
              | true =>
                simpa using writeStage_count_le w.state (fingerprintOf d1 d2)
                  (displayModeOf d2) e (by rw [h2]; exact h)

lemma runState_count_le (es : List TickEnv) (s : ControllerState)
    (h : s.partial_refresh_count ≤ MAX_PARTIAL_REFRESHES) :
    (runState s es).partial_refresh_count ≤ MAX_PARTIAL_REFRESHES := by
  induction es generalizing s with
  | nil => simpa [runState] using h
  | cons e es ih => exact ih _ (tick_count_le s e h)

lemma need_full_refresh_iff (s : ControllerState) (ck : Fingerprint) :
    need_full_refresh s ck = true ↔
      (s.last_config = none ∨ s.last_config ≠ some ck ∨
        MAX_PARTIAL_REFRESHES ≤ s.partial_refresh_count) := by
  simp [need_full_refresh, Option.isNone_iff_eq_none]
  tauto

-- ### C9

/-- C9: for every tick in which a data fetch returns `None` (any
network/HTTP failure), `update_display` returns with every controller state
field unchanged and with zero hardware driver calls issued. -/
theorem C9_fetch_failure_noop (s : ControllerState) (e : TickEnv)
    (h : e.fetch1 = none ∨ e.fetch2 = none) :
    tick s e = ⟨s, [], .fetchFailed⟩ := by
  unfold tick
  rcases h with h | h
  · rw [h]
  · cases hf1 : e.fetch1 with
    | none => rfl
    | some d1 => rw [h]

/-- C9 at a concrete input: a tick whose first fetch returns `None`. -/
theorem C9_witness :
    tick (initState "4gray") envAllOk = ⟨initState "4gray", [], .fetchFailed⟩ :=
  C9_fetch_failure_noop _ _ (Or.inl rfl)

-- ### C2

/-- C2 is false as stated: after the sixth tick of the concrete black/white
run `sixTicks` (a full refresh, then five successful partial refreshes of an
unchanged fingerprint), `partial_refresh_count` equals 5 =
`MAX_PARTIAL_REFRESHES`, not strictly less. -/
theorem C2_counterexample :
    (runState (initState "bw") sixTicks).partial_refresh_count = 5 ∧
    ¬ (runState (initState "bw") sixTicks).partial_refresh_count <
        MAX_PARTIAL_REFRESHES := by decide

/-- C2 (amended): after any sequence of ticks from a freshly initialized
controller, `partial_refresh_count` is at most `MAX_PARTIAL_REFRESHES` (the
check `partial_refresh_count >= MAX_PARTIAL_REFRESHES` runs before the
write, so the counter itself reaches the threshold after the fifth
consecutive partial refresh); and a black/white write-stage tick whose
counter has reached the threshold issues the full `epd.display` — never
`epd.display_Partial` — and resets the counter to 0 when that write
succeeds. -/
theorem C2_amended_counter_invariant :
    (∀ (m : String) (es : List TickEnv),
      (runState (initState m) es).partial_refresh_count ≤
        MAX_PARTIAL_REFRESHES) ∧
    (∀ (s : ControllerState) (ck : Fingerprint) (e : TickEnv),
      MAX_PARTIAL_REFRESHES ≤ s.partial_refresh_count →
        HWEvent.displayPartial ∉ (writeStage s ck "bw" e).events ∧
        HWEvent.displayFull ∈ (writeStage s ck "bw" e).events ∧
        (e.fullOk = true →
          (writeStage s ck "bw" e).state.partial_refresh_count = 0)) := by
  constructor
  · intro m es
    exact runState_count_le es _ (by simp [initState])
  · intro s ck e hge
    have hnf : need_full_refresh s ck = true := by
      rw [need_full_refresh_iff]
      exact Or.inr (Or.inr hge)
    unfold writeStage
    rw [if_neg (by decide : ¬(("bw" : String) = "4gray")), if_pos hnf]
    cases hfo : e.fullOk <;> simp

-- ### C8

/-- C8 is false as stated: in the concrete run with identical fingerprints
and elapsed time always above the interval, the SIXTH tick still issues
`epd.display_Partial`, not the full `epd.display`. -/
theorem C8_counterexample :
    HWEvent.displayPartial ∈
      (tick (runState (initState "bw") (sixTicks.take 5)) (bwEnv 3000 6)).events ∧
    HWEvent.displayFull ∉
      (tick (runState (initState "bw") (sixTicks.take 5)) (bwEnv 3000 6)).events := by
  decide

/-- C8 (amended): in the concrete run of SEVEN consecutive black/white ticks
with identical fingerprint and elapsed time always above
`MIN_REFRESH_INTERVAL`, tick 1 issues the full `epd.display`, ticks 2
through 6 each issue `epd.display_Partial` (each preceded by the wake
`epd.init`), and tick 7 issues the full `epd.display`, after which
`partial_refresh_count` is 0. -/
theorem C8_amended_seven_tick_cycle :
    runEvents (initState "bw") sevenTicks =
      [.displayFull, .sleepPanel,
       .init, .displayPartial, .sleepPanel,
       .init, .displayPartial, .sleepPanel,
       .init, .displayPartial, .sleepPanel,
       .init, .displayPartial, .sleepPanel,
       .init, .displayPartial, .sleepPanel,
       .init, .displayFull, .sleepPanel] ∧
    (runState (initState "bw") sevenTicks).partial_refresh_count = 0 := by
  decide

-- ### C1

/-- C1 is false as stated: at this concrete black/white tick the partial
write raises, the fallback `epd.display` is attempted and also raises, and
`partial_refresh_count` remains 3 — it is not reset to 0. -/
theorem C1_counterexample :
    (tick c1State c1Env).outcome = .fallbackFailed ∧
    HWEvent.displayPartial ∈ (tick c1State c1Env).events ∧
    HWEvent.displayFull ∈ (tick c1State c1Env).events ∧
    (tick c1State c1Env).state.partial_refresh_count = 3 ∧
    ¬ (tick c1State c1Env).state.partial_refresh_count = 0 := by decide

/-- C1 (amended): in black/white mode, at the write stage, the write goes
directly to the full `epd.display` (no partial attempt) if and only if
`last_config` is `None`, or the fingerprint differs from `last_config`, or
`partial_refresh_count >= MAX_PARTIAL_REFRESHES`; a successful full write
resets the counter.  Otherwise `epd.display_Partial` is attempted: on
success the counter increments by 1; on an exception the tick falls back to
attempting the full `epd.display`, resetting the counter to 0 if that write
succeeds — if the fallback also raises, the tick is abandoned with the
counter unchanged. -/
theorem C1_amended_bw_write_policy (s : ControllerState) (ck : Fingerprint)
    (e : TickEnv) :
    ((HWEvent.displayPartial ∉ (writeStage s ck "bw" e).events) ↔
      (s.last_config = none ∨ s.last_config ≠ some ck ∨
        MAX_PARTIAL_REFRESHES ≤ s.partial_refresh_count)) ∧
    (need_full_refresh s ck = true →
      HWEvent.displayFull ∈ (writeStage s ck "bw" e).events ∧
      (e.fullOk = true →
        (writeStage s ck "bw" e).state.partial_refresh_count = 0)) ∧
    (need_full_refresh s ck = false →
      HWEvent.displayPartial ∈ (writeStage s ck "bw" e).events ∧
      (e.partialOk = true →
        (writeStage s ck "bw" e).state.partial_refresh_count =
          s.partial_refresh_count + 1 ∧
        HWEvent.displayFull ∉ (writeStage s ck "bw" e).events) ∧
      (e.partialOk = false →
        HWEvent.displayFull ∈ (writeStage s ck "bw" e).events ∧
        (e.fullOk = true →
          (writeStage s ck "bw" e).state.partial_refresh_count = 0) ∧
        (e.fullOk = false →
          (writeStage s ck "bw" e).state.partial_refresh_count =
            s.partial_refresh_count))) := by
  have hiff := need_full_refresh_iff s ck
  unfold writeStage
  rw [if_neg (by decide : ¬(("bw" : String) = "4gray"))]
  by_cases hnf : need_full_refresh s ck = true
  · rw [if_pos hnf]
    cases hfo : e.fullOk <;> simp_all
  · rw [if_neg hnf]
    cases hpo : e.partialOk
    · rw [if_neg (by simp [hpo])]
      cases hfo : e.fullOk
      · rw [if_neg (by simp [hfo])]
        simp_all
      · rw [if_pos (by simp [hfo])]
        simp_all
    · rw [if_pos (by simp [hpo])]
      simp_all

-- ### C4

lemma displayModeOf_cases (d : FetchData) :
    displayModeOf d = "4gray" ∨ displayModeOf d = "bw" := by
  unfold displayModeOf
  dsimp only
  split_ifs with h
  · exact h
  · exact Or.inl rfl

lemma initAttemptEvents_noPartial (dm : String) (ok hp : Bool) :
    HWEvent.displayPartial ∉ initAttemptEvents dm ok hp := by
  unfold initAttemptEvents
  split_ifs <;> simp

lemma modeChange_noPartial (s : ControllerState) (dm : String) (e : TickEnv) :
    HWEvent.displayPartial ∉ (modeChange s dm e).2 := by
  unfold modeChange
  rcases s.current_display_mode with _ | cm
  · simp
  · dsimp only
    split_ifs <;> first | exact initAttemptEvents_noPartial _ _ _ | simp

lemma wake_noPartial (s : ControllerState) (dm : String) (e : TickEnv) :
    HWEvent.displayPartial ∉ (wake s dm e).events := by
  unfold wake
  split_ifs <;> first | exact initAttemptEvents_noPartial _ _ _ | simp

lemma writeStage_gray_noPartial (s : ControllerState) (ck : Fingerprint)
    (e : TickEnv) :
    HWEvent.displayPartial ∉ (writeStage s ck "4gray" e).events ∧
    ((writeStage s ck "4gray" e).state.partial_refresh_count = 0 ∨
      (writeStage s ck "4gray" e).state.partial_refresh_count =
        s.partial_refresh_count) := by
  unfold writeStage
  rw [if_pos rfl]
  cases hg : e.grayOk <;> simp

lemma tick_gray_noPartial (s : ControllerState) (e : TickEnv)
    (hmode : e.fetch2.map displayModeOf ≠ some "bw") :
    HWEvent.displayPartial ∉ (tick s e).events ∧
    ((tick s e).state.partial_refresh_count = 0 ∨
      (tick s e).state.partial_refresh_count = s.partial_refresh_count) := by
  unfold tick
  cases hf1 : e.fetch1 with
  | none => simp
  | some d1 =>
    cases hf2 : e.fetch2 with
    | none => simp
    | some d2 =>
      have hdm : displayModeOf d2 = "4gray" := by
        rcases displayModeOf_cases d2 with h | h
        · exact h
        · exact absurd (by rw [hf2]; simp [h]) hmode
      simp only [tickBody]
      rw [hdm]
      by_cases hs : should_refresh_display (fingerprintOf d1 d2) s.last_config
          s.last_refresh_time e.now = false
      · rw [if_pos hs]
        exact ⟨modeChange_noPartial _ _ _, Or.inr (by simp)⟩
      · rw [if_neg hs]
        by_cases hrf : e.rendererFound = false
        · rw [if_pos hrf]
          exact ⟨modeChange_noPartial _ _ _, Or.inr (by simp)⟩
        · rw [if_neg hrf]
          cases hr : e.render with
          | none => exact ⟨modeChange_noPartial _ _ _, Or.inr (by simp)⟩
          | some dg =>
            dsimp only
            by_cases hh : s.last_image_hash = some dg
            · rw [if_pos hh]
              exact ⟨modeChange_noPartial _ _ _, Or.inr (by simp)⟩
            · rw [if_neg hh]
              set w := wake (setHash (modeChange s "4gray" e).1 dg) "4gray" e
                with hwdef
              have hwev : HWEvent.displayPartial ∉ w.events := by
                rw [hwdef]; exact wake_noPartial _ _ _
              have hwc : w.state.partial_refresh_count =
                  s.partial_refresh_count := by
                rw [hwdef]; simp
              clear_value w
              cases hwok : w.ok with
              | false =>
                refine ⟨?_, Or.inr (by simp [hwc])⟩
                intro hmem
                rcases List.mem_append.1 hmem with hmem | hmem
                · exact modeChange_noPartial _ _ _ hmem
                · exact hwev hmem
              | true =>
                rw [if_neg (show ¬(true = false) by simp)]
                dsimp only
                have hws := writeStage_gray_noPartial w.state
                  (fingerprintOf d1 d2) e
                refine ⟨?_, ?_⟩
                · intro hmem
                  rcases List.mem_append.1 hmem with hmem | hmem
                  · rcases List.mem_append.1 hmem with hmem | hmem
                    · exact modeChange_noPartial _ _ _ hmem
                    · exact hwev hmem
                  · exact hws.1 hmem
                · rcases hws.2 with h0 | hsame
                  · exact Or.inl h0
                  · right
                    rw [hsame, hwc]

lemma runGray_aux (es : List TickEnv) (s : ControllerState)
    (hzero : s.partial_refresh_count = 0)
    (h : ∀ e ∈ es, e.fetch2.map displayModeOf ≠ some "bw") :
    HWEvent.displayPartial ∉ runEvents s es ∧
    ∀ n, (runState s (es.take n)).partial_refresh_count = 0 := by
  induction es generalizing s with
  | nil =>
    refine ⟨by simp [runEvents], fun n => ?_⟩
    simpa [runState] using hzero
  | cons e es ih =>
    have hthis := tick_gray_noPartial s e (h e (by simp))
    have hcount : (tick s e).state.partial_refresh_count = 0 := by
      rcases hthis.2 with h0 | hsame
      · exact h0
      · rw [hsame, hzero]
    obtain ⟨ih1, ih2⟩ := ih (tick s e).state hcount
      (fun e' he' => h e' (by simp [he']))
    refine ⟨?_, fun n => ?_⟩
    · simp only [runEvents]
      intro hmem
      rcases List.mem_append.1 hmem with hmem | hmem
      · exact hthis.1 hmem
      · exact ih1 hmem
    · cases n with
      | zero => simpa [runState] using hzero
      | succ n =>
        simpa only [List.take_succ_cons, runState] using ih2 n

/-- C4: for every sequence of ticks from a freshly initialized controller in
which every snapshot's display mode is four-gray (never black/white),
`epd.display_Partial` is never called — the writes are all the full
`epd.display_4Gray` — and `partial_refresh_count` stays 0 after every prefix
of the sequence. -/
theorem C4_four_gray_noPartial (m : String) (es : List TickEnv)
    (h : ∀ e ∈ es, e.fetch2.map displayModeOf ≠ some "bw") :
    HWEvent.displayPartial ∉ runEvents (initState m) es ∧
    ∀ n, (runState (initState m) (es.take n)).partial_refresh_count = 0 :=
  runGray_aux es (initState m) rfl h

/-- C4 at a concrete input: two four-gray ticks. -/
theorem C4_witness :
    HWEvent.displayPartial ∉
      runEvents (initState "4gray") [grayEnv 1000 1, grayEnv 1400 2] ∧
    ∀ n, (runState (initState "4gray")
      ([grayEnv 1000 1, grayEnv 1400 2].take n)).partial_refresh_count = 0 :=
  C4_four_gray_noPartial "4gray" [grayEnv 1000 1, grayEnv 1400 2]
    (by decide)

-- ### C5

lemma writeStage_failed_state (s : ControllerState) (ck : Fingerprint)
    (dm : String) (e : TickEnv)
    (h : (writeStage s ck dm e).outcome = .grayFailed ∨
         (writeStage s ck dm e).outcome = .fullFailed ∨
         (writeStage s ck dm e).outcome = .fallbackFailed) :
    (writeStage s ck dm e).state = s := by
  unfold writeStage at h ⊢
  split_ifs at h ⊢ <;> simp_all

lemma writeStage_not_early (s : ControllerState) (ck : Fingerprint)
    (dm : String) (e : TickEnv) :
    (writeStage s ck dm e).outcome ≠ .renderRaised ∧
    (writeStage s ck dm e).outcome ≠ .wakeFailed := by
  unfold writeStage
  split_ifs <;> simp

/-- C5 is false as stated: at this concrete tick the render succeeds, the
full `epd.display` write raises (outcome `fullFailed`, caught at the tick
boundary), yet `last_image_hash` has been mutated — it is not left unchanged
from its value at the start of the tick. -/
theorem C5_counterexample :
    (tick (initState "bw") c5Env).outcome = .fullFailed ∧
    (tick (initState "bw") c5Env).state.last_image_hash = some 9 ∧
    (tick (initState "bw") c5Env).state.last_image_hash ≠
      (initState "bw").last_image_hash := by decide

/-- C5 (amended): every exception raised by the render function or by a
hardware driver call is caught inside `update_display` (the tick function is
total), and when the tick is abandoned by an exception from the render, the
wake reinitialization, or a display write — outcomes `renderRaised`,
`wakeFailed`, `grayFailed`, `fullFailed`, `fallbackFailed` — the committed
bookkeeping `last_config`, `last_refresh_time` and `partial_refresh_count`
is unchanged from the start of the tick; `last_image_hash`,
`DISPLAY_SLEEPING` and `current_display_mode`, however, may already have
been mutated. -/
theorem C5_amended_exception_containment (s : ControllerState) (e : TickEnv)
    (h : (tick s e).outcome = .renderRaised ∨
         (tick s e).outcome = .wakeFailed ∨
         (tick s e).outcome = .grayFailed ∨
         (tick s e).outcome = .fullFailed ∨
         (tick s e).outcome = .fallbackFailed) :
    (tick s e).state.last_config = s.last_config ∧
    (tick s e).state.last_refresh_time = s.last_refresh_time ∧
    (tick s e).state.partial_refresh_count = s.partial_refresh_count := by
  revert h
  unfold tick
  cases hf1 : e.fetch1 with
  | none => intro h; simp
  | some d1 =>
    cases hf2 : e.fetch2 with
    | none => intro h; simp
    | some d2 =>
      simp only [tickBody]
      by_cases hs : should_refresh_display (fingerprintOf d1 d2) s.last_config
          s.last_refresh_time e.now = false
      · rw [if_pos hs]; intro h; simp
      · rw [if_neg hs]
        by_cases hrf : e.rendererFound = false
        · rw [if_pos hrf]; intro h; simp
        · rw [if_neg hrf]
          cases hr : e.render with
          | none => intro h; simp
          | some dg =>
            dsimp only
            by_cases hh : s.last_image_hash = some dg
            · rw [if_pos hh]; intro h; simp
            · rw [if_neg hh]
              set w := wake (setHash (modeChange s (displayModeOf d2) e).1 dg)
                  (displayModeOf d2) e with hwdef
              have hw1 : w.state.last_config = s.last_config := by
                rw [hwdef]; simp
              have hw2 : w.state.last_refresh_time = s.last_refresh_time := by
                rw [hwdef]; simp
              have hw3 : w.state.partial_refresh_count =
                  s.partial_refresh_count := by
                rw [hwdef]; simp
              clear_value w
              cases hwok : w.ok with
              | false =>
                intro h
                exact ⟨hw1, hw2, hw3⟩
              | true =>
                rw [if_neg (show ¬(true = false) by simp)]
                dsimp only
                intro h
                have hfail : (writeStage w.state (fingerprintOf d1 d2)
                    (displayModeOf d2) e).outcome = .grayFailed ∨
                    (writeStage w.state (fingerprintOf d1 d2)
                      (displayModeOf d2) e).outcome = .fullFailed ∨
                    (writeStage w.state (fingerprintOf d1 d2)
                      (displayModeOf d2) e).outcome = .fallbackFailed := by
                  rcases h with h | h | h | h | h
                  · exact absurd h (writeStage_not_early _ _ _ _).1
                  · exact absurd h (writeStage_not_early _ _ _ _).2
                  · exact Or.inl h
                  · exact Or.inr (Or.inl h)
                  · exact Or.inr (Or.inr h)
                rw [writeStage_failed_state _ _ _ _ hfail]
                exact ⟨hw1, hw2, hw3⟩

/-- C5 at a concrete input: a failed full write leaves the committed
bookkeeping untouched. -/
theorem C5_witness :
    (tick (initState "bw") c5Env).state.last_config =
      (initState "bw").last_config ∧
    (tick (initState "bw") c5Env).state.last_refresh_time =
      (initState "bw").last_refresh_time ∧
    (tick (initState "bw") c5Env).state.partial_refresh_count =
      (initState "bw").partial_refresh_count :=
  C5_amended_exception_containment (initState "bw") c5Env (by decide)

lemma modeChange_no_write (s : ControllerState) (dm : String) (e : TickEnv) :
    HWEvent.display4Gray ∉ (modeChange s dm e).2 ∧
    HWEvent.displayFull ∉ (modeChange s dm e).2 ∧
    HWEvent.displayPartial ∉ (modeChange s dm e).2 := by
  unfold modeChange initAttemptEvents
  rcases s.current_display_mode with _ | cm <;> dsimp only <;>
    first | (split_ifs <;> simp) | simp

-- ### C7

/-- C7 is false as stated: at this concrete tick the fingerprint differs
from `last_config` (task count 2 vs 1) but the rendered digest equals the
stored `last_image_hash`: no hardware write is issued — and `last_config` is
NOT updated to the new fingerprint; it keeps its old value. -/
theorem C7_counterexample :
    (tick c7State (bwEnv 1100 7)).outcome = .contentUnchanged ∧
    (tick c7State (bwEnv 1100 7)).events = [] ∧
    (tick c7State (bwEnv 1100 7)).state.last_config =
      some ⟨"weekly", 1, "bw"⟩ ∧
    (tick c7State (bwEnv 1100 7)).state.last_config ≠
      some (fingerprintOf ⟨some "weekly", some "bw", 2⟩
        ⟨some "weekly", some "bw", 2⟩) := by decide

/-- C7 (amended): for every tick whose rendered bitmap digest equals the
stored `last_image_hash`, `update_display` issues no hardware write (no
`display`, `display_4Gray` or `display_Partial` call) and returns without
updating the fingerprint: `last_config`, `last_refresh_time`,
`partial_refresh_count` and `last_image_hash` all keep their values.  When
additionally the snapshot's mode equals `current_display_mode`, the tick
makes no hardware call at all and leaves the whole controller state
unchanged (otherwise only the preceding mode-change block may have issued a
reinitialization call and touched `current_display_mode` and
`DISPLAY_SLEEPING` before the hash check). -/
theorem C7_amended_content_hash_skip (s : ControllerState) (e : TickEnv)
    (d1 d2 : FetchData) (dg : Nat)
    (hf1 : e.fetch1 = some d1) (hf2 : e.fetch2 = some d2)
    (hsr : should_refresh_display (fingerprintOf d1 d2) s.last_config
      s.last_refresh_time e.now = true)
    (hrf : e.rendererFound = true)
    (hr : e.render = some dg)
    (hh : s.last_image_hash = some dg) :
    (tick s e).outcome = .contentUnchanged ∧
    HWEvent.display4Gray ∉ (tick s e).events ∧
    HWEvent.displayFull ∉ (tick s e).events ∧
    HWEvent.displayPartial ∉ (tick s e).events ∧
    (tick s e).state.last_config = s.last_config ∧
    (tick s e).state.last_refresh_time = s.last_refresh_time ∧
    (tick s e).state.partial_refresh_count = s.partial_refresh_count ∧
    (tick s e).state.last_image_hash = s.last_image_hash ∧
    (s.current_display_mode = some (displayModeOf d2) →
      tick s e = ⟨s, [], .contentUnchanged⟩) := by
  rw [tick_eq_body s e d1 d2 hf1 hf2]
  simp only [tickBody]
  rw [hr]
  dsimp only
  rw [if_neg (by simp [hsr]), if_neg (by simp [hrf]), if_pos hh]
  refine ⟨rfl, (modeChange_no_write s (displayModeOf d2) e).1,
    (modeChange_no_write s (displayModeOf d2) e).2.1,
    (modeChange_no_write s (displayModeOf d2) e).2.2,
    by simp, by simp, by simp, by simp, ?_⟩
  intro hmode
  have hmceq : modeChange s (displayModeOf d2) e = (s, []) := by
    unfold modeChange
    rw [hmode]
    dsimp only
    rw [if_pos rfl]
  rw [hmceq]

/-- C7 at a concrete input: the modes match, so the hash-match tick returns
with the state entirely unchanged and an empty call trace. -/
theorem C7_witness :
    tick c7State (bwEnv 1100 7) = ⟨c7State, [], .contentUnchanged⟩ :=
  (C7_amended_content_hash_skip c7State (bwEnv 1100 7)
    ⟨some "weekly", some "bw", 2⟩ ⟨some "weekly", some "bw", 2⟩ 7
    rfl rfl (by decide) rfl rfl rfl).2.2.2.2.2.2.2.2 (by decide)

-- ### C3

/-- C3 is false as stated: at this concrete tick the fingerprint equals
`last_config` and only 100 of the 300 seconds have elapsed, so the tick is
skipped — yet because the snapshot's mode (`bw`) differs from
`current_display_mode` (`4gray`), the mode-change block still issues a
hardware `epd.init()` call and mutates `current_display_mode` and
`DISPLAY_SLEEPING` before the skip. -/
theorem C3_counterexample :
    (bwEnv 1100 1).now - c3ceState.last_refresh_time <
      MIN_REFRESH_INTERVAL ∧
    c3ceState.last_config = some (fingerprintOf
      ⟨some "weekly", some "bw", 2⟩ ⟨some "weekly", some "bw", 2⟩) ∧
    (tick c3ceState (bwEnv 1100 1)).outcome = .skipped ∧
    (tick c3ceState (bwEnv 1100 1)).events = [HWEvent.init] ∧
    (tick c3ceState (bwEnv 1100 1)).state ≠ c3ceState := by decide

/-- C3 (amended): for every tick whose fingerprint equals `last_config`,
whose elapsed time since `last_refresh_time` is below
`MIN_REFRESH_INTERVAL`, and whose snapshot mode equals
`current_display_mode` (so the mode-change block does nothing),
`update_display` skips the tick entirely: no render, no hardware call, no
state mutation — and a second consecutive identical call does the same. -/
theorem C3_amended_skip_tick (s : ControllerState) (e : TickEnv)
    (d1 d2 : FetchData)
    (hf1 : e.fetch1 = some d1) (hf2 : e.fetch2 = some d2)
    (hmode : s.current_display_mode = some (displayModeOf d2))
    (hck : s.last_config = some (fingerprintOf d1 d2))
    (htime : e.now - s.last_refresh_time < MIN_REFRESH_INTERVAL) :
    tick s e = ⟨s, [], .skipped⟩ ∧
    tick (tick s e).state e = ⟨s, [], .skipped⟩ := by
  have hsr : should_refresh_display (fingerprintOf d1 d2) s.last_config
      s.last_refresh_time e.now = false := by
    rw [hck]
    simp [should_refresh_display, htime]
  have hmceq : modeChange s (displayModeOf d2) e = (s, []) := by
    unfold modeChange
    rw [hmode]
    dsimp only
    rw [if_pos rfl]
  have h1 : tick s e = ⟨s, [], .skipped⟩ := by
    rw [tick_eq_body s e d1 d2 hf1 hf2]
    simp only [tickBody]
    rw [hmceq, if_pos hsr]
  exact ⟨h1, by rw [h1]; exact h1⟩

/-- C3 at a concrete input: an unchanged black/white snapshot 100 seconds
after the last refresh is skipped twice with no calls and no mutation. -/
theorem C3_witness :
    tick c3WitState (bwEnv 1100 1) = ⟨c3WitState, [], .skipped⟩ ∧
    tick (tick c3WitState (bwEnv 1100 1)).state (bwEnv 1100 1) =
      ⟨c3WitState, [], .skipped⟩ :=
  C3_amended_skip_tick c3WitState (bwEnv 1100 1)
    ⟨some "weekly", some "bw", 2⟩ ⟨some "weekly", some "bw", 2⟩
    rfl rfl (by decide) (by decide) (by decide)

-- ### C6

lemma initAttemptEvents_attempt (dm : String) (ok hp : Bool) :
    (if dm = "4gray" then HWEvent.init4Gray else HWEvent.init) ∈
      initAttemptEvents dm ok hp := by
  unfold initAttemptEvents
  split_ifs <;> simp

/-- C6 is false as stated: at this concrete tick the snapshot's mode (`bw`)
differs from `current_display_mode` (`4gray`) and the reinitialization
raises — yet the tick does NOT abort: it goes on to issue a full
`epd.display` write and commits a new `last_config`. -/
theorem C6_counterexample :
    (tick (initState "4gray") c6Env).outcome = .wroteFull ∧
    HWEvent.displayFull ∈ (tick (initState "4gray") c6Env).events ∧
    (tick (initState "4gray") c6Env).state.last_config ≠
      (initState "4gray").last_config := by decide

/-- C6 (amended): for every tick in which the snapshot's display mode
differs from `current_display_mode` and the panel reinitialization for the
new mode raises, the exception is caught, the reinitialization call is
issued (and recorded), and `current_display_mode` is left unchanged — so the
mode change is retried on the next poll — but the tick continues through the
rest of the cycle instead of aborting. -/
theorem C6_amended_reinit_failure (s : ControllerState) (e : TickEnv)
    (d1 d2 : FetchData) (cm : String)
    (hf1 : e.fetch1 = some d1) (hf2 : e.fetch2 = some d2)
    (hcm : s.current_display_mode = some cm)
    (hne : cm ≠ displayModeOf d2)
    (hfail : e.modeInitOk = false) :
    (tick s e).state.current_display_mode = some cm ∧
    (if displayModeOf d2 = "4gray" then HWEvent.init4Gray else HWEvent.init)
      ∈ (tick s e).events := by
  have hmceq : modeChange s (displayModeOf d2) e =
      (s, initAttemptEvents (displayModeOf d2) false e.hasInitPart) := by
    unfold modeChange
    rw [hcm]
    dsimp only
    rw [if_neg hne, if_neg (by simp [hfail])]
  have hattempt := initAttemptEvents_attempt (displayModeOf d2) false
    e.hasInitPart
  rw [tick_eq_body s e d1 d2 hf1 hf2]
  simp only [tickBody]
  rw [hmceq]
  dsimp only
  by_cases hs : should_refresh_display (fingerprintOf d1 d2) s.last_config
      s.last_refresh_time e.now = false
  · rw [if_pos hs]
    exact ⟨hcm, hattempt⟩
  · rw [if_neg hs]
    by_cases hrf : e.rendererFound = false
    · rw [if_pos hrf]
      exact ⟨hcm, hattempt⟩
    · rw [if_neg hrf]
      cases hr : e.render with
      | none => exact ⟨hcm, hattempt⟩
      | some dg =>
        dsimp only
        by_cases hh : s.last_image_hash = some dg
        · rw [if_pos hh]
          exact ⟨hcm, hattempt⟩
        · rw [if_neg hh]
          set w := wake (setHash s dg) (displayModeOf d2) e with hwdef
          have hwcur : w.state.current_display_mode = some cm := by
            rw [hwdef]
            simp [hcm]
          clear_value w
          cases hwok : w.ok with
          | false =>
            exact ⟨hwcur, List.mem_append_left _ hattempt⟩
          | true =>
            rw [if_neg (show ¬(true = false) by simp)]
            dsimp only
            refine ⟨?_, ?_⟩
            · rw [writeStage_current_display_mode]
              exact hwcur
            · exact List.mem_append_left _ (List.mem_append_left _ hattempt)

/-- C6 at a concrete input: the failed reinitialization keeps
`current_display_mode` at `4gray` and records the attempted `epd.init()`. -/
theorem C6_witness :
    (tick (initState "4gray") c6Env).state.current_display_mode =
      some "4gray" ∧
    (if displayModeOf (⟨some "weekly", some "bw", 2⟩ : FetchData) = "4gray"
      then HWEvent.init4Gray else HWEvent.init)
      ∈ (tick (initState "4gray") c6Env).events :=
  C6_amended_reinit_failure (initState "4gray") c6Env
    ⟨some "weekly", some "bw", 2⟩ ⟨some "weekly", some "bw", 2⟩ "4gray"
    rfl rfl rfl (by decide) rfl

-- ### C10

/-- C10: in every tick that renders a bitmap whose digest differs from the
stored hash and that proceeds to the wake/write sequence,
`update_display.last_image_hash` is overwritten with the new digest before
the write is attempted — so it holds the new digest even when the wake
reinitialization or the display write raises (outcomes `wakeFailed`,
`grayFailed`, `fullFailed`, `fallbackFailed`) — and consequently any tick
whose stored hash already equals the rendered digest issues no display
write at all, even if that bitmap was never successfully displayed. -/
theorem C10_hash_overwritten_before_write (s : ControllerState) (e : TickEnv)
    (dg : Nat) (hr : e.render = some dg) :
    ((tick s e).outcome = .wakeFailed ∨ (tick s e).outcome = .wroteGray ∨
     (tick s e).outcome = .grayFailed ∨ (tick s e).outcome = .wroteFull ∨
     (tick s e).outcome = .fullFailed ∨ (tick s e).outcome = .wrotePartial ∨
     (tick s e).outcome = .fellBack ∨ (tick s e).outcome = .fallbackFailed →
      (tick s e).state.last_image_hash = some dg) ∧
    (s.last_image_hash = some dg →
      HWEvent.display4Gray ∉ (tick s e).events ∧
      HWEvent.displayFull ∉ (tick s e).events ∧
      HWEvent.displayPartial ∉ (tick s e).events) := by
  constructor
  · unfold tick
    cases hf1 : e.fetch1 with
    | none =>
      intro h
      rcases h with h | h | h | h | h | h | h | h <;> simp at h
    | some d1 =>
      cases hf2 : e.fetch2 with
      | none =>
        intro h
        rcases h with h | h | h | h | h | h | h | h <;> simp at h
      | some d2 =>
        simp only [tickBody]
        rw [hr]
        dsimp only
        by_cases hs : should_refresh_display (fingerprintOf d1 d2)
            s.last_config s.last_refresh_time e.now = false
        · rw [if_pos hs]
          intro h
          rcases h with h | h | h | h | h | h | h | h <;> simp at h
        · rw [if_neg hs]
          by_cases hrf : e.rendererFound = false
          · rw [if_pos hrf]
            intro h
            rcases h with h | h | h | h | h | h | h | h <;> simp at h
          · rw [if_neg hrf]
            by_cases hh : s.last_image_hash = some dg
            · rw [if_pos hh]
              intro h
              rcases h with h | h | h | h | h | h | h | h <;> simp at h
            · rw [if_neg hh]
              set w := wake (setHash (modeChange s (displayModeOf d2) e).1 dg)
                  (displayModeOf d2) e with hwdef
              have hwh : w.state.last_image_hash = some dg := by
                rw [hwdef]
                simp
              clear_value w
              cases hwok : w.ok with
              | false =>
                intro h
                exact hwh
              | true =>
                rw [if_neg (show ¬(true = false) by simp)]
                dsimp only
                intro h
                rw [writeStage_last_image_hash]
                exact hwh
  · intro hh
    unfold tick
    cases hf1 : e.fetch1 with
    | none => simp
    | some d1 =>
      cases hf2 : e.fetch2 with
      | none => simp
      | some d2 =>
        simp only [tickBody]
        rw [hr]
        dsimp only
        have hmcw := modeChange_no_write s (displayModeOf d2) e
        by_cases hs : should_refresh_display (fingerprintOf d1 d2)
            s.last_config s.last_refresh_time e.now = false
        · rw [if_pos hs]
          exact hmcw
        · rw [if_neg hs]
          by_cases hrf : e.rendererFound = false
          · rw [if_pos hrf]
            exact hmcw
          · rw [if_neg hrf]
            rw [if_pos hh]
            exact hmcw

/-- C10 at a concrete input: the full write of `c5Env` raises, yet the
stored image hash now holds the digest of the never-displayed bitmap. -/
theorem C10_witness :
    (tick (initState "bw") c5Env).state.last_image_hash = some 9 :=
  (C10_hash_overwritten_before_write (initState "bw") c5Env 9 rfl).1
    (by decide)
